import Mathlib

/-
Shallow embedding of the observability client package
(packages/observability-client/src): session handling (core/session.ts),
user-id resolution (utils/user.ts), configuration merge (core/config.ts),
service-error severity (tracking/errors.ts), the durable event queue and
the HTTP delivery client (core/client.ts).

Browser storage is modelled as a partial map from string keys to string
values; fetch outcomes are modelled as an explicit result value
(a resolved response with a status code, or a rejected promise carrying
a JS error with a name and a message); fresh ids and timestamps are
supplied explicitly by the caller or by a generator argument.
-/

namespace Obs

/-- Model of localStorage / sessionStorage: a partial map from string
keys to string values. -/
def Store : Type := String → Option String

/-- Empty storage. -/
def Store.empty : Store := fun _ => none

/-- Model of storage.setItem. -/
def Store.setItem (st : Store) (k v : String) : Store :=
  fun q => if q = k then some v else st q

/-- Model of storage.removeItem. -/
def Store.removeItem (st : Store) (k : String) : Store :=
  fun q => if q = k then none else st q

/-! Session handling, from core/session.ts. -/

/-- Mint a fresh session id, as in core/session.ts: the template
"session_" + Date.now() + "_" + random base36 suffix, persisted under
the key observability_session_id. -/
def mintSession (st : Store) (now : Nat) (rand : String) : String × Store :=
  let id := "session_" ++ toString now ++ "_" ++ rand
  (id, st.setItem ("observability_session_id") id)

/-- getSessionId from core/session.ts (browser branch): read the stored
id; if it is absent or empty (JS truthiness of the getItem result), mint
and persist a new one; otherwise return the stored id and leave the
storage unchanged.  The source consults no last-activity timestamp and
writes none. -/
def getSessionId (st : Store) (now : Nat) (rand : String) : String × Store :=
  match st ("observability_session_id") with
  | some id => if id = "" then mintSession st now rand else (id, st)
  | none => mintSession st now rand

/-! User-id resolution, from utils/user.ts.  JSON.parse of a stored
"current user" object is abstracted by a parse function argument
producing an optional user object with optional numeric id / user_id
fields (the typeof number checks of the source; a field whose stored
value is not a number is modelled as absent). -/

/-- Decimal digit character, for the model of Number.prototype.toString. -/
def digitChar (d : Nat) : Char :=
  if d = 0 then '0' else if d = 1 then '1' else if d = 2 then '2'
  else if d = 3 then '3' else if d = 4 then '4' else if d = 5 then '5'
  else if d = 6 then '6' else if d = 7 then '7' else if d = 8 then '8'
  else '9'

/-- Numeric value of a decimal digit character. -/
def charVal (c : Char) : Nat := c.toNat - 48

/-- Decimal representation of a natural number, most significant digit
first, as produced by JS Number.prototype.toString for a non-negative
integer. -/
def natToDec (n : Nat) : String :=
  if n = 0 then "0"
  else String.mk (((Nat.digits 10 n).reverse).map digitChar)

/-- Decimal representation of an integer, as produced by JS
Number.prototype.toString for an integral number. -/
def jsIntToString (n : Int) : String :=
  if n < 0 then "-" ++ natToDec n.natAbs else natToDec n.toNat

/-- Whitespace characters skipped by JS parseInt. -/
def isWs (c : Char) : Bool := c = ' ' || c = '\t' || c = '\n' || c = '\r'

/-- Longest leading run of decimal digits, as consumed by JS parseInt
with radix 10; none when there is no digit (parseInt returns NaN). -/
def parseDigits (cs : List Char) : Option Nat :=
  let ds := cs.takeWhile Char.isDigit
  if ds.isEmpty then none
  else some (ds.foldl (fun a c => a * 10 + charVal c) 0)

/-- Model of JS parseInt(s, 10): skip leading whitespace, accept an
optional sign, then parse the longest digit prefix; none models NaN. -/
def parseInt10 (s : String) : Option Int :=
  match s.toList.dropWhile isWs with
  | [] => none
  | c :: rest =>
      if c = '-' then (parseDigits rest).map (fun m => -(Int.ofNat m))
      else if c = '+' then (parseDigits rest).map (fun m => Int.ofNat m)
      else (parseDigits (c :: rest)).map (fun m => Int.ofNat m)

/-- Abstraction of a JSON-parsed "current user" object: the optional
numeric id and user_id fields.  A stored field of non-numeric type is
modelled as absent, matching the typeof checks of getUserId. -/
structure JsUser where
  id : Option Int
  user_id : Option Int

/-- Check one parsed user object, as getUserId does: return id when it
is present, numeric and truthy (nonzero), else user_id under the same
conditions, else nothing. -/
def checkUserObj (u : JsUser) : Option Int :=
  match u.id with
  | some i =>
      if i ≠ 0 then some i
      else match u.user_id with
           | some j => if j ≠ 0 then some j else none
           | none => none
  | none =>
      match u.user_id with
      | some j => if j ≠ 0 then some j else none
      | none => none

/-- Conventional storage keys probed by getUserId, in source order. -/
def userPatterns : List String :=
  ["user", "currentUser", "auth_user", "user_data", "userInfo"]

/-- Probe a single conventional key: a missing or empty stored string is
skipped (JS truthiness), an unparseable one is skipped (the catch around
JSON.parse), otherwise the parsed object is inspected. -/
def tryPattern (jsonParse : String → Option JsUser) (st : Store) (k : String) :
    Option Int :=
  match st k with
  | none => none
  | some s =>
      if s = "" then none
      else match jsonParse s with
           | none => none
           | some u => checkUserObj u

/-- First hit over the conventional keys, matching the for loop of
getUserId. -/
def tryPatterns (jsonParse : String → Option JsUser) (st : Store) :
    List String → Option Int
  | [] => none
  | k :: rest =>
      match tryPattern jsonParse st k with
      | some v => some v
      | none => tryPatterns jsonParse st rest

/-- JS truthiness of a getItem result: present and nonempty. -/
def truthyOpt : Option String → Bool
  | none => false
  | some s => s ≠ ""

/-- The JS expression a || b on two getItem results. -/
def jsOrStr (a b : Option String) : Option String :=
  if truthyOpt a then a else b

/-- getUserId from utils/user.ts: probe the conventional object keys,
then the direct id keys user_id / userId, parsing the latter with
parseInt; null when nothing matches. -/
def getUserId (jsonParse : String → Option JsUser) (st : Store) : Option Int :=
  match tryPatterns jsonParse st userPatterns with
  | some v => some v
  | none =>
      match jsOrStr (st ("user_id")) (st ("userId")) with
      | some s =>
          if s = "" then none
          else match parseInt10 s with
               | some n => some n
               | none => none
      | none => none

/-- setUserId from utils/user.ts: store the decimal string of the id
under the dedicated key, or remove the key when called with null. -/
def setUserId (userId : Option Int) (st : Store) : Store :=
  match userId with
  | none => st.removeItem ("observability_user_id")
  | some n => st.setItem ("observability_user_id") (jsIntToString n)

/-- getObservabilityUserId from utils/user.ts: parse the dedicated
override key when present and nonempty; on a missing key or a NaN parse
fall back to getUserId heuristics. -/
def getObservabilityUserId (jsonParse : String → Option JsUser) (st : Store) :
    Option Int :=
  match st ("observability_user_id") with
  | some s =>
      if s = "" then getUserId jsonParse st
      else match parseInt10 s with
           | some n => some n
           | none => getUserId jsonParse st
  | none => getUserId jsonParse st

/-! Configuration, from core/config.ts. -/

/-- Effective autoTrack toggles. -/
structure AutoTrackCfg where
  pageViews : Bool
  errors : Bool
  apiErrors : Bool
  clicks : Bool
  formChanges : Bool
  apiCalls : Bool
deriving DecidableEq, Repr

/-- User-supplied partial autoTrack toggles. -/
structure AutoTrackOpt where
  pageViews : Option Bool
  errors : Option Bool
  apiErrors : Option Bool
  clicks : Option Bool
  formChanges : Option Bool
  apiCalls : Option Bool
deriving DecidableEq, Repr

/-- Effective autoTrackSelectors. -/
structure SelectorsCfg where
  clicks : List String
deriving DecidableEq, Repr

/-- User-supplied partial autoTrackSelectors. -/
structure SelectorsOpt where
  clicks : Option (List String)
deriving DecidableEq, Repr

/-- Effective exclude lists. -/
structure ExcludeCfg where
  paths : List String
  selectors : List String
deriving DecidableEq, Repr

/-- User-supplied partial exclude lists. -/
structure ExcludeOpt where
  paths : Option (List String)
  selectors : Option (List String)
deriving DecidableEq, Repr

/-- Effective configuration, the Required ObservabilityConfig of
core/config.ts. -/
structure ResolvedConfig where
  serviceUrl : String
  serviceName : String
  autoTrack : AutoTrackCfg
  autoTrackSelectors : SelectorsCfg
  exclude : ExcludeCfg
  batchSize : Nat
  batchInterval : Nat
  retryAttempts : Nat
  devMode : Bool
  testMode : Bool
deriving DecidableEq, Repr

/-- User-supplied partial configuration.  JS objects carry arbitrary
extra properties; the unrecognized field models keys outside the
recognized option set. -/
structure UserConfig where
  serviceUrl : Option String
  serviceName : Option String
  autoTrack : Option AutoTrackOpt
  autoTrackSelectors : Option SelectorsOpt
  exclude : Option ExcludeOpt
  batchSize : Option Nat
  batchInterval : Option Nat
  retryAttempts : Option Nat
  devMode : Option Bool
  testMode : Option Bool
  unrecognized : List String

/-- DEFAULT_CONFIG of core/config.ts.  The devMode default depends on
window.location.hostname being a loopback host; that ambient fact is the
devDefault argument. -/
def DEFAULT_CONFIG (devDefault : Bool) : ResolvedConfig :=
  { serviceUrl := "http://localhost:8006"
  , serviceName := "@ai-observability/client"
  , autoTrack :=
      { pageViews := true, errors := true, apiErrors := true
      , clicks := false, formChanges := false, apiCalls := false }
  , autoTrackSelectors := { clicks := [] }
  , exclude := { paths := [], selectors := [] }
  , batchSize := 10
  , batchInterval := 5000
  , retryAttempts := 3
  , devMode := devDefault
  , testMode := false }

/-- Object spread of the user autoTrack overrides onto the defaults:
spreading an absent object keeps the defaults, otherwise each present
key overrides that key only. -/
def spreadAutoTrack (d : AutoTrackCfg) (u : Option AutoTrackOpt) : AutoTrackCfg :=
  match u with
  | none => d
  | some o =>
      { pageViews := o.pageViews.getD d.pageViews
      , errors := o.errors.getD d.errors
      , apiErrors := o.apiErrors.getD d.apiErrors
      , clicks := o.clicks.getD d.clicks
      , formChanges := o.formChanges.getD d.formChanges
      , apiCalls := o.apiCalls.getD d.apiCalls }

/-- Object spread of the user autoTrackSelectors overrides onto the
defaults. -/
def spreadSelectors (d : SelectorsCfg) (u : Option SelectorsOpt) : SelectorsCfg :=
  match u with
  | none => d
  | some o => { clicks := o.clicks.getD d.clicks }

/-- Object spread of the user exclude overrides onto the defaults. -/
def spreadExclude (d : ExcludeCfg) (u : Option ExcludeOpt) : ExcludeCfg :=
  match u with
  | none => d
  | some o =>
      { paths := o.paths.getD d.paths
      , selectors := o.selectors.getD d.selectors }

/-- mergeConfig from core/config.ts: each top-level scalar key is the
user value when present (the ?? operator), nested objects are merged by
object spread; keys outside the recognized set never reach the merged
object. -/
def mergeConfig (devDefault : Bool) (userConfig : UserConfig) : ResolvedConfig :=
  { serviceUrl := userConfig.serviceUrl.getD (DEFAULT_CONFIG devDefault).serviceUrl
  , serviceName := userConfig.serviceName.getD (DEFAULT_CONFIG devDefault).serviceName
  , autoTrack := spreadAutoTrack (DEFAULT_CONFIG devDefault).autoTrack userConfig.autoTrack
  , autoTrackSelectors :=
      spreadSelectors (DEFAULT_CONFIG devDefault).autoTrackSelectors userConfig.autoTrackSelectors
  , exclude := spreadExclude (DEFAULT_CONFIG devDefault).exclude userConfig.exclude
  , batchSize := userConfig.batchSize.getD (DEFAULT_CONFIG devDefault).batchSize
  , batchInterval := userConfig.batchInterval.getD (DEFAULT_CONFIG devDefault).batchInterval
  , retryAttempts := userConfig.retryAttempts.getD (DEFAULT_CONFIG devDefault).retryAttempts
  , devMode := userConfig.devMode.getD (DEFAULT_CONFIG devDefault).devMode
  , testMode := userConfig.testMode.getD (DEFAULT_CONFIG devDefault).testMode }

/-! Service-error severity, from trackServiceError in tracking/errors.ts. -/

/-- Severity derivation of trackServiceError.  The statusCode argument
is the optional numeric error.response.status; the source tests it with
JS truthiness, so a present status of 0 takes the no-status branch. -/
def serviceErrorSeverity (statusCode : Option Int) : String :=
  match statusCode with
  | some s =>
      if s ≠ 0 then
        if 500 ≤ s then "ERROR"
        else if 400 ≤ s then (if s = 404 then "INFO" else "WARNING")
        else "INFO"
      else "ERROR"
  | none => "ERROR"

/-! Durable event queue and delivery client, from core/client.ts.
Payload bodies are an arbitrary type alpha, passed through untouched
(JSON.stringify of equal values is equal, so requests are recorded as
endpoint-payload pairs). -/

/-- Queued event kind, the type field of QueuedEvent. -/
inductive EventType where
  | event
  | ui_event
  | ui_error
  | service_error
deriving DecidableEq, Repr

/-- The payload field of a queued event: the endpoint path plus the
request body, as stored by sendImmediate. -/
structure QueuedPayload (α : Type) where
  endpoint : String
  payload : α
deriving DecidableEq, Repr

/-- QueuedEvent from types.ts: id, enqueue timestamp, retry count, kind
and payload. -/
structure QueuedEvent (α : Type) where
  id : String
  timestamp : Nat
  retries : Nat
  type : EventType
  payload : QueuedPayload α
deriving DecidableEq, Repr

/-- The maxQueueSize constant of EventQueue. -/
def maxQueueSize : Nat := 100

/-- EventQueue.enqueue: when the queue already holds at least
maxQueueSize items, splice off the oldest Math.floor(maxQueueSize * 0.25)
items, then push a new item with retry count 0.  The id template
Date.now() + underscore + random suffix and the timestamp are built from
the now and rand arguments. -/
def EventQueue.enqueue {α : Type} (q : List (QueuedEvent α)) (ty : EventType)
    (pl : QueuedPayload α) (now : Nat) (rand : String) : List (QueuedEvent α) :=
  let q2 := if maxQueueSize ≤ q.length then q.drop (maxQueueSize * 25 / 100) else q
  q2 ++ [{ id := toString now ++ "_" ++ rand, timestamp := now, retries := 0
         , type := ty, payload := pl }]

/-- EventQueue.remove: filter out every item with the given id. -/
def EventQueue.remove {α : Type} (q : List (QueuedEvent α)) (eventId : String) :
    List (QueuedEvent α) :=
  q.filter (fun e => e.id ≠ eventId)

/-- EventQueue.incrementRetry: bump the retry count of the first item
with the given id (Array.prototype.find semantics). -/
def EventQueue.incrementRetry {α : Type} :
    List (QueuedEvent α) → String → List (QueuedEvent α)
  | [], _ => []
  | e :: rest, eventId =>
      if e.id = eventId then { e with retries := e.retries + 1 } :: rest
      else e :: EventQueue.incrementRetry rest eventId

/-- A JS error value: its name and message. -/
structure JsError where
  name : String
  message : String
deriving DecidableEq, Repr

/-- Outcome of one fetch call: a resolved response with its status, or a
rejected promise carrying an error. -/
inductive FetchResult where
  | resolved (status : Nat) (statusText : String)
  | rejected (e : JsError)
deriving DecidableEq, Repr

/-- The error thrown by the try block of sendImmediate for a given fetch
outcome: none on an ok (2xx) response; the HTTP-status error thrown on a
non-ok response; the rejection error itself otherwise. -/
def fetchError : FetchResult → Option JsError
  | .resolved status statusText =>
      if 200 ≤ status ∧ status ≤ 299 then none
      else some { name := "Error"
                , message := "HTTP " ++ toString status ++ ": " ++ statusText }
  | .rejected e => some e

/-- Substring test on character lists, the semantics of
String.prototype.includes. -/
def containsSub : List Char → List Char → Bool
  | [], pat => pat.isEmpty
  | c :: t, pat => pat.isPrefixOf (c :: t) || containsSub t pat

/-- String.prototype.includes. -/
def strIncludes (s pat : String) : Bool := containsSub s.toList pat.toList

/-- The CORS heuristic of sendImmediate: the message contains CORS or
Failed to fetch, or the error is a TypeError whose message contains
fetch. -/
def isCorsErrorSend (e : JsError) : Bool :=
  strIncludes e.message ("CORS") || strIncludes e.message ("Failed to fetch") ||
    (e.name == "TypeError" && strIncludes e.message ("fetch"))

/-- The narrower CORS heuristic of processQueue: only the message
contents are consulted. -/
def isCorsErrorDrain (e : JsError) : Bool :=
  strIncludes e.message ("CORS") || strIncludes e.message ("Failed to fetch")

/-- Event kind derived from the endpoint path in sendImmediate. -/
def eventTypeFor (endpoint : String) : EventType :=
  if strIncludes endpoint ("/ui-events") then .ui_event
  else if strIncludes endpoint ("/errors/ui") then .ui_error
  else if strIncludes endpoint ("/errors/services") then .service_error
  else .event

/-- sendImmediate from core/client.ts, for a given fetch outcome:
returns the error it rethrows (if any), the durable queue afterwards,
and the single request it issued.  On a failure it enqueues the
endpoint-payload pair unless queueOnFailure is off or the CORS heuristic
matches. -/
def sendImmediate {α : Type} (q : List (QueuedEvent α)) (endpoint : String)
    (payload : α) (queueOnFailure : Bool) (fr : FetchResult) (now : Nat)
    (rand : String) :
    Option JsError × List (QueuedEvent α) × List (String × α) :=
  match fetchError fr with
  | none => (none, q, [(endpoint, payload)])
  | some e =>
      if queueOnFailure && !isCorsErrorSend e then
        (some e,
         EventQueue.enqueue q (eventTypeFor endpoint) ⟨endpoint, payload⟩ now rand,
         [(endpoint, payload)])
      else (some e, q, [(endpoint, payload)])

/-- One iteration of the processQueue loop on the item ev: an item at
its retry ceiling is removed without a delivery attempt; otherwise the
stored endpoint and payload are posted once (the request is recorded),
then the item is removed on success, removed on a drain-CORS failure,
and retry-incremented on any other failure. -/
def drainStep {α : Type} (retryAttempts : Nat)
    (fetchFor : String → α → FetchResult)
    (st : List (QueuedEvent α) × List (String × α)) (ev : QueuedEvent α) :
    List (QueuedEvent α) × List (String × α) :=
  if retryAttempts ≤ ev.retries then (EventQueue.remove st.1 ev.id, st.2)
  else
    let req := (ev.payload.endpoint, ev.payload.payload)
    match fetchError (fetchFor ev.payload.endpoint ev.payload.payload) with
    | none => (EventQueue.remove st.1 ev.id, st.2 ++ [req])
    | some e =>
        if isCorsErrorDrain e then (EventQueue.remove st.1 ev.id, st.2 ++ [req])
        else (EventQueue.incrementRetry st.1 ev.id, st.2 ++ [req])

/-- processQueue from core/client.ts: scan a snapshot of the 10 oldest
items, threading the live queue through drainStep; also returns the
delivery requests issued during the pass. -/
def processQueue {α : Type} (retryAttempts : Nat)
    (fetchFor : String → α → FetchResult) (q : List (QueuedEvent α)) :
    List (QueuedEvent α) × List (String × α) :=
  (q.take 10).foldl (drainStep retryAttempts fetchFor) (q, [])

/-- In-memory state of the HttpClient: the batch buffer and the durable
queue. -/
structure ClientState (α : Type) where
  batch : List (String × α)
  queue : List (QueuedEvent α)
deriving DecidableEq, Repr

/-- The flushBatch loop: attempt every buffered item in order through
sendImmediate with queueOnFailure on, ignoring per-item failures; gen
supplies the timestamp and random suffix for any enqueue.  Returns the
queue afterwards and all requests issued. -/
def flushAux {α : Type} (fetchFor : String → α → FetchResult)
    (gen : Nat → Nat × String) :
    Nat → List (QueuedEvent α) → List (String × α) →
    List (QueuedEvent α) × List (String × α)
  | _, q, [] => (q, [])
  | k, q, ev :: rest =>
      let r := sendImmediate q ev.1 ev.2 true (fetchFor ev.1 ev.2) (gen k).1 (gen k).2
      let next := flushAux fetchFor gen (k + 1) r.2.1 rest
      (next.1, r.2.2 ++ next.2)

/-- flushBatch from core/client.ts on a drained copy of the buffer. -/
def flushBatch {α : Type} (fetchFor : String → α → FetchResult)
    (gen : Nat → Nat × String) (q : List (QueuedEvent α))
    (events : List (String × α)) : List (QueuedEvent α) × List (String × α) :=
  flushAux fetchFor gen 0 q events

/-- HttpClient.send: in test mode do nothing; on an immediate send run
sendImmediate and swallow its error; otherwise push onto the batch
buffer and flush when the buffer has reached batchSize.  Returns the new
client state and the requests issued during the call. -/
def send {α : Type} (cfg : ResolvedConfig) (fetchFor : String → α → FetchResult)
    (gen : Nat → Nat × String) (st : ClientState α) (endpoint : String)
    (payload : α) (queueOnFailure : Bool) (immediate : Bool) :
    ClientState α × List (String × α) :=
  if cfg.testMode then (st, [])
  else if immediate then
    let r := sendImmediate st.queue endpoint payload queueOnFailure
      (fetchFor endpoint payload) (gen 0).1 (gen 0).2
    ({ st with queue := r.2.1 }, r.2.2)
  else
    let b := st.batch ++ [(endpoint, payload)]
    if cfg.batchSize ≤ b.length then
      let r := flushBatch fetchFor gen st.queue b
      ({ batch := [], queue := r.1 }, r.2)
    else ({ st with batch := b }, [])

/-- A sequence of non-immediate send calls (the default tracking path),
accumulating every request issued. -/
def sendSeq {α : Type} (cfg : ResolvedConfig)
    (fetchFor : String → α → FetchResult) (gen : Nat → Nat × String) :
    ClientState α → List (String × α) → ClientState α × List (String × α)
  | st, [] => (st, [])
  | st, c :: rest =>
      let r := send cfg fetchFor gen st c.1 c.2 true false
      let r2 := sendSeq cfg fetchFor gen r.1 rest
      (r2.1, r.2 ++ r2.2)

/-- One send call with explicit options. -/
structure SendCall (α : Type) where
  endpoint : String
  payload : α
  queueOnFailure : Bool
  immediate : Bool

/-- A sequence of send calls with arbitrary per-call options. -/
def sendCalls {α : Type} (cfg : ResolvedConfig)
    (fetchFor : String → α → FetchResult) (gen : Nat → Nat × String) :
    ClientState α → List (SendCall α) → ClientState α × List (String × α)
  | st, [] => (st, [])
  | st, c :: rest =>
      let r := send cfg fetchFor gen st c.endpoint c.payload c.queueOnFailure c.immediate
      let r2 := sendCalls cfg fetchFor gen r.1 rest
      (r2.1, r.2 ++ r2.2)

/-- Fetch oracle that always resolves with a 200 response. -/
def fetchOk {α : Type} : String → α → FetchResult :=
  fun _ _ => .resolved 200 ("OK")

/-- The effective configuration of the batching scenario: the built-in
defaults (batchSize 10, testMode off). -/
def cfg10 : ResolvedConfig := DEFAULT_CONFIG false

/-! Theorems. -/

/-- Claim C1: the spec and the package's own session tests require a
session older than 30 minutes of inactivity to be replaced on the next
getSessionId call, but the source never consults the last-activity
timestamp: at the failing input (stored id session_12345, last activity
at time 0, current time 31 minutes later) getSessionId still returns the
stored id and refreshes nothing. -/
theorem getSessionId_ignores_inactivity_timeout :
    (getSessionId
        ((Store.empty.setItem ("observability_session_last_activity") ("0")).setItem
          ("observability_session_id") ("session_12345"))
        1860000 ("zzz")).1 = "session_12345" ∧
    (getSessionId
        ((Store.empty.setItem ("observability_session_last_activity") ("0")).setItem
          ("observability_session_id") ("session_12345"))
        1860000 ("zzz")).2 ("observability_session_last_activity") = some "0" ∧
    (getSessionId
        ((Store.empty.setItem ("observability_session_last_activity") ("0")).setItem
          ("observability_session_id") ("session_12345"))
        1860000 ("zzz")).2 ("observability_session_id") = some "session_12345" := by
  refine ⟨?_, ?_, ?_⟩ <;> rfl

/-- Claim C2: enqueue first evicts the oldest floor(100 * 0.25) = 25
items exactly when the current count is at least 100, then appends the
new item with retry count 0; starting from any queue of at most 100
items the result never exceeds 100 items and the retained items are the
most recently enqueued ones (a suffix of the old queue plus the new
item). -/
theorem enqueue_bounded_and_evicts_oldest {α : Type} (q : List (QueuedEvent α))
    (ty : EventType) (pl : QueuedPayload α) (now : Nat) (rand : String)
    (h : q.length ≤ 100) :
    (EventQueue.enqueue q ty pl now rand).length ≤ 100 ∧
    EventQueue.enqueue q ty pl now rand =
      (if 100 ≤ q.length then q.drop 25 else q) ++
        [{ id := toString now ++ "_" ++ rand, timestamp := now, retries := 0
         , type := ty, payload := pl }] := by
  constructor
  · unfold EventQueue.enqueue maxQueueSize
    by_cases hq : 100 ≤ q.length
    · simp only [hq, if_true, List.length_append, List.length_drop,
        List.length_cons, List.length_nil]
      omega
    · simp only [hq, if_false, List.length_append, List.length_cons,
        List.length_nil]
      omega
  · rfl

/-- Witness for claim C2 at a concrete full queue of 100 items. -/
theorem enqueue_bounded_and_evicts_oldest_witness :
    (EventQueue.enqueue
        (List.replicate 100
          ({ id := "e", timestamp := 0, retries := 0, type := .event
           , payload := ⟨"/events", (0 : Nat)⟩ } : QueuedEvent Nat))
        .event ⟨"/q", 1⟩ 5 ("r")).length ≤ 100 ∧
    EventQueue.enqueue
        (List.replicate 100
          ({ id := "e", timestamp := 0, retries := 0, type := .event
           , payload := ⟨"/events", (0 : Nat)⟩ } : QueuedEvent Nat))
        .event ⟨"/q", 1⟩ 5 ("r") =
      (if 100 ≤ (List.replicate 100
          ({ id := "e", timestamp := 0, retries := 0, type := .event
           , payload := ⟨"/events", (0 : Nat)⟩ } : QueuedEvent Nat)).length
       then (List.replicate 100
          ({ id := "e", timestamp := 0, retries := 0, type := .event
           , payload := ⟨"/events", (0 : Nat)⟩ } : QueuedEvent Nat)).drop 25
       else List.replicate 100
          ({ id := "e", timestamp := 0, retries := 0, type := .event
           , payload := ⟨"/events", (0 : Nat)⟩ } : QueuedEvent Nat)) ++
        [{ id := toString 5 ++ "_" ++ "r", timestamp := 5, retries := 0
         , type := .event, payload := ⟨"/q", 1⟩ }] :=
  enqueue_bounded_and_evicts_oldest _ _ _ _ _ (by simp)

/-- Counterexample for claim C3: the error a Node fetch failure actually
produces (a TypeError with message fetch failed) is classified as a CORS
failure by the send-path heuristic, yet a queued item whose drain
attempt fails with exactly that error is not removed: processQueue keeps
it and increments its retry count. -/
theorem cors_classification_mismatch_cex :
    isCorsErrorSend ⟨"TypeError", "fetch failed"⟩ = true ∧
    processQueue 3 (fun _ _ => .rejected ⟨"TypeError", "fetch failed"⟩)
        [⟨"id1", 0, 0, .event, ⟨"/events", (7 : Nat)⟩⟩] =
      ([⟨"id1", 0, 1, .event, ⟨"/events", 7⟩⟩], [("/events", 7)]) := by
  refine ⟨by decide, by decide⟩

/-- Claim C3 (amended): a send failure the send-path heuristic
classifies as CORS is never enqueued (the durable queue is unchanged, so
such a failure is never present in the queue after send returns); during
drain an item below its retry ceiling is removed without a retry-count
increment exactly when the narrower drain-path heuristic (message
contains CORS or Failed to fetch) matches, and is retry-incremented and
kept when it does not, even if the send-path heuristic would have
classified the same failure as CORS. -/
theorem cors_failures_never_queued_and_drain_rule {α : Type}
    (q cur : List (QueuedEvent α)) (endpoint : String) (payload : α)
    (qof : Bool) (e e2 e3 : JsError) (now : Nat) (rand : String)
    (ra : Nat) (reqs : List (String × α)) (ev : QueuedEvent α)
    (hSend : isCorsErrorSend e = true)
    (hRet : ev.retries < ra)
    (hD2 : isCorsErrorDrain e2 = true)
    (hD3 : isCorsErrorDrain e3 = false) :
    (sendImmediate q endpoint payload qof (.rejected e) now rand).2.1 = q ∧
    drainStep ra (fun _ _ => .rejected e2) (cur, reqs) ev =
      (EventQueue.remove cur ev.id,
       reqs ++ [(ev.payload.endpoint, ev.payload.payload)]) ∧
    drainStep ra (fun _ _ => .rejected e3) (cur, reqs) ev =
      (EventQueue.incrementRetry cur ev.id,
       reqs ++ [(ev.payload.endpoint, ev.payload.payload)]) := by
  have hra : ¬ (ra ≤ ev.retries) := by omega
  refine ⟨?_, ?_, ?_⟩
  · simp [sendImmediate, fetchError, hSend]
  · simp [drainStep, fetchError, hra, hD2]
  · simp [drainStep, fetchError, hra, hD3]

/-- Witness for the amended claim C3 at concrete errors and a concrete
queued item. -/
theorem cors_failures_never_queued_and_drain_rule_witness :
    (sendImmediate ([] : List (QueuedEvent Nat)) ("/events") 7 true
        (.rejected ⟨"Error", "CORS blocked"⟩) 0 ("r")).2.1 = [] ∧
    drainStep 3 (fun _ _ => .rejected ⟨"TypeError", "Failed to fetch"⟩)
        ([⟨"a", 0, 0, .event, ⟨"/e", (1 : Nat)⟩⟩], [])
        ⟨"a", 0, 0, .event, ⟨"/e", 1⟩⟩ =
      (EventQueue.remove [⟨"a", 0, 0, .event, ⟨"/e", 1⟩⟩] "a",
       [] ++ [("/e", 1)]) ∧
    drainStep 3 (fun _ _ => .rejected ⟨"Error", "HTTP 500: boom"⟩)
        ([⟨"a", 0, 0, .event, ⟨"/e", (1 : Nat)⟩⟩], [])
        ⟨"a", 0, 0, .event, ⟨"/e", 1⟩⟩ =
      (EventQueue.incrementRetry [⟨"a", 0, 0, .event, ⟨"/e", 1⟩⟩] "a",
       [] ++ [("/e", 1)]) := by
  have h := cors_failures_never_queued_and_drain_rule
    ([] : List (QueuedEvent Nat)) [⟨"a", 0, 0, .event, ⟨"/e", 1⟩⟩]
    ("/events") 7 true ⟨"Error", "CORS blocked"⟩
    ⟨"TypeError", "Failed to fetch"⟩ ⟨"Error", "HTTP 500: boom"⟩ 0 ("r") 3 []
    ⟨"a", 0, 0, .event, ⟨"/e", 1⟩⟩ (by decide) (by decide) (by decide) (by decide)
  exact ⟨h.1, by simpa using h.2.1, by simpa using h.2.2⟩

/-- Counterexample for claim C4: a present status code of 0 (which some
network stacks report) is an "other status", so the claim requires INFO,
but the source tests the status with JS truthiness and derives ERROR. -/
theorem serviceErrorSeverity_zero_status_cex :
    serviceErrorSeverity (some 0) = "ERROR" ∧
    serviceErrorSeverity (some 0) ≠ "INFO" := by
  refine ⟨rfl, by decide⟩

/-- Claim C4 (amended): trackServiceError derives severity as ERROR for
status at least 500, WARNING for a status in 400..499 other than 404,
INFO for 404, INFO for any other truthy (nonzero) status, and ERROR when
the status is absent or 0 (JS truthiness treats a present 0 like an
absent status); in particular 404 yields INFO, 503 yields ERROR and 401
yields WARNING. -/
theorem serviceErrorSeverity_rule (s1 s2 s3 : Int)
    (h1 : 500 ≤ s1) (h2 : 400 ≤ s2 ∧ s2 ≤ 499 ∧ s2 ≠ 404)
    (h3 : s3 < 400 ∧ s3 ≠ 0) :
    serviceErrorSeverity (some s1) = "ERROR" ∧
    serviceErrorSeverity (some s2) = "WARNING" ∧
    serviceErrorSeverity (some s3) = "INFO" ∧
    serviceErrorSeverity (some 404) = "INFO" ∧
    serviceErrorSeverity (some 503) = "ERROR" ∧
    serviceErrorSeverity (some 401) = "WARNING" ∧
    serviceErrorSeverity none = "ERROR" ∧
    serviceErrorSeverity (some 0) = "ERROR" := by
  obtain ⟨h2a, h2b, h2c⟩ := h2
  obtain ⟨h3a, h3b⟩ := h3
  have e1 : s1 ≠ 0 := by omega
  have e3 : ¬ (500 ≤ s2) := by omega
  have e2 : s2 ≠ 0 := by omega
  have e4 : ¬ (500 ≤ s3) := by omega
  have e5 : ¬ (400 ≤ s3) := by omega
  refine ⟨?_, ?_, ?_, rfl, rfl, rfl, rfl, rfl⟩
  · simp [serviceErrorSeverity, e1, h1]
  · simp [serviceErrorSeverity, e2, e3, h2a, h2c]
  · simp [serviceErrorSeverity, h3b, e4, e5]

/-- Witness for the amended claim C4 at statuses 600, 422 and -1. -/
theorem serviceErrorSeverity_rule_witness :
    serviceErrorSeverity (some 600) = "ERROR" ∧
    serviceErrorSeverity (some 422) = "WARNING" ∧
    serviceErrorSeverity (some (-1)) = "INFO" ∧
    serviceErrorSeverity (some 404) = "INFO" ∧
    serviceErrorSeverity (some 503) = "ERROR" ∧
    serviceErrorSeverity (some 401) = "WARNING" ∧
    serviceErrorSeverity none = "ERROR" ∧
    serviceErrorSeverity (some 0) = "ERROR" :=
  serviceErrorSeverity_rule 600 422 (-1) (by decide)
    ⟨by decide, by decide, by decide⟩ ⟨by decide, by decide⟩

/-- Every sendImmediate call issues exactly one request, the
endpoint-payload pair it was given. -/
theorem sendImmediate_reqs {α : Type} (q : List (QueuedEvent α))
    (endpoint : String) (payload : α) (qof : Bool) (fr : FetchResult)
    (now : Nat) (rand : String) :
    (sendImmediate q endpoint payload qof fr now rand).2.2 =
      [(endpoint, payload)] := by
  rcases h : fetchError fr with _ | e
  · simp [sendImmediate, h]
  · simp only [sendImmediate, h]
    split <;> rfl

/-- The flush loop attempts every buffered item, in order, regardless of
the outcome of any attempt. -/
theorem flushAux_attempts {α : Type} (fetchFor : String → α → FetchResult)
    (gen : Nat → Nat × String) :
    ∀ (events : List (String × α)) (k : Nat) (q : List (QueuedEvent α)),
      (flushAux fetchFor gen k q events).2 = events := by
  intro events
  induction events with
  | nil => intro k q; rfl
  | cons ev rest ih => intro k q; simp [flushAux, sendImmediate_reqs, ih]

/-- A non-immediate send appends to the batch buffer and flushes (which
empties the buffer) exactly when the buffer reaches batchSize. -/
theorem send_batch_eq {α : Type} (cfg : ResolvedConfig)
    (fetchFor : String → α → FetchResult) (gen : Nat → Nat × String)
    (st : ClientState α) (endpoint : String) (payload : α)
    (h : cfg.testMode = false) :
    (send cfg fetchFor gen st endpoint payload true false).1.batch =
      (if cfg.batchSize ≤ st.batch.length + 1 then []
       else st.batch ++ [(endpoint, payload)]) := by
  by_cases hc : cfg.batchSize ≤ st.batch.length + 1 <;>
    simp [send, h, hc, List.length_append]

/-- A flush from an empty durable queue with an always-successful fetch
leaves the queue empty and attempts exactly the buffered items. -/
theorem flushAux_ok_empty {α : Type} (gen : Nat → Nat × String) :
    ∀ (events : List (String × α)) (k : Nat),
      flushAux (fetchOk (α := α)) gen k [] events = ([], events) := by
  intro events
  induction events with
  | nil => intro k; rfl
  | cons ev rest ih =>
      intro k
      have hsi : sendImmediate ([] : List (QueuedEvent α)) ev.1 ev.2 true
          (fetchOk ev.1 ev.2) (gen k).1 (gen k).2 =
          (none, [], [(ev.1, ev.2)]) := rfl
      simp [flushAux, hsi, ih]

/-- Unfolding of one non-immediate send in a call sequence. -/
theorem sendSeq_cons {α : Type} (cfg : ResolvedConfig)
    (fetchFor : String → α → FetchResult) (gen : Nat → Nat × String)
    (st : ClientState α) (c : String × α) (rest : List (String × α)) :
    sendSeq cfg fetchFor gen st (c :: rest) =
      ((sendSeq cfg fetchFor gen
          (send cfg fetchFor gen st c.1 c.2 true false).1 rest).1,
       (send cfg fetchFor gen st c.1 c.2 true false).2 ++
         (sendSeq cfg fetchFor gen
           (send cfg fetchFor gen st c.1 c.2 true false).1 rest).2) := rfl

/-- A non-immediate send strictly below the batch threshold only
appends to the buffer. -/
theorem send_noflush {α : Type} (cfg : ResolvedConfig)
    (fetchFor : String → α → FetchResult) (gen : Nat → Nat × String)
    (st : ClientState α) (endpoint : String) (payload : α)
    (h : cfg.testMode = false)
    (hnb : ¬ (cfg.batchSize ≤ st.batch.length + 1)) :
    send cfg fetchFor gen st endpoint payload true false =
      ({ st with batch := st.batch ++ [(endpoint, payload)] }, []) := by
  simp [send, h, List.length_append, hnb]

/-- A non-immediate send that reaches the batch threshold flushes the
whole buffer. -/
theorem send_flush_eq {α : Type} (cfg : ResolvedConfig)
    (fetchFor : String → α → FetchResult) (gen : Nat → Nat × String)
    (st : ClientState α) (endpoint : String) (payload : α)
    (h : cfg.testMode = false)
    (hb : cfg.batchSize ≤ st.batch.length + 1) :
    send cfg fetchFor gen st endpoint payload true false =
      ({ batch := []
       , queue := (flushBatch fetchFor gen st.queue
           (st.batch ++ [(endpoint, payload)])).1 },
       (flushBatch fetchFor gen st.queue
         (st.batch ++ [(endpoint, payload)])).2) := by
  simp [send, h, List.length_append, hb]

/-- Non-immediate sends that stay strictly below batchSize only
accumulate in the buffer and issue no request. -/
theorem sendSeq_fill {α : Type} (cfg : ResolvedConfig)
    (fetchFor : String → α → FetchResult) (gen : Nat → Nat × String)
    (h : cfg.testMode = false) :
    ∀ (calls : List (String × α)) (st : ClientState α),
      st.batch.length + calls.length < cfg.batchSize →
      sendSeq cfg fetchFor gen st calls =
        ({ st with batch := st.batch ++ calls }, []) := by
  intro calls
  induction calls with
  | nil => intro st hlen; simp [sendSeq]
  | cons c rest ih =>
      intro st hlen
      obtain ⟨ce, cp⟩ := c
      simp only [List.length_cons] at hlen
      have hnb : ¬ (cfg.batchSize ≤ st.batch.length + 1) := by omega
      have ih2 := ih { st with batch := st.batch ++ [(ce, cp)] }
        (by simp only [List.length_append, List.length_cons, List.length_nil]
            omega)
      rw [sendSeq_cons, send_noflush cfg fetchFor gen st ce cp h hnb]
      simp [ih2, List.append_assoc]

/-- Under the default configuration, non-immediate sends that exactly
fill the buffer to batchSize trigger one flush: the buffer is emptied
and the buffered items are all attempted (with a successful fetch the
durable queue stays empty). -/
theorem sendSeq_flush {α : Type} (gen : Nat → Nat × String) :
    ∀ (calls : List (String × α)) (st : ClientState α),
      st.queue = [] → calls ≠ [] →
      st.batch.length + calls.length = cfg10.batchSize →
      sendSeq cfg10 (fetchOk (α := α)) gen st calls =
        (⟨[], []⟩, st.batch ++ calls) := by
  intro calls
  induction calls with
  | nil => intro st _ hne _; exact absurd rfl hne
  | cons c rest ih =>
      intro st hq hne hlen
      obtain ⟨ce, cp⟩ := c
      have ht : cfg10.testMode = false := rfl
      cases rest with
      | nil =>
          have hb : cfg10.batchSize ≤ st.batch.length + 1 := by
            simp only [List.length_cons, List.length_nil] at hlen
            omega
          rw [sendSeq_cons, send_flush_eq cfg10 fetchOk gen st ce cp ht hb]
          unfold flushBatch
          rw [hq, flushAux_ok_empty]
          simp [sendSeq]
      | cons c2 rest2 =>
          simp only [List.length_cons] at hlen
          have hnb : ¬ (cfg10.batchSize ≤ st.batch.length + 1) := by omega
          have ih2 := ih { st with batch := st.batch ++ [(ce, cp)] }
            hq (by simp)
            (by simp only [List.length_append, List.length_cons, List.length_nil]
                omega)
          rw [sendSeq_cons, send_noflush cfg10 fetchOk gen st ce cp ht hnb]
          simp [ih2, List.append_assoc]

/-- A sequence of non-immediate sends splits along list append. -/
theorem sendSeq_append {α : Type} (cfg : ResolvedConfig)
    (fetchFor : String → α → FetchResult) (gen : Nat → Nat × String) :
    ∀ (xs ys : List (String × α)) (st : ClientState α),
      sendSeq cfg fetchFor gen st (xs ++ ys) =
        ((sendSeq cfg fetchFor gen (sendSeq cfg fetchFor gen st xs).1 ys).1,
         (sendSeq cfg fetchFor gen st xs).2 ++
           (sendSeq cfg fetchFor gen (sendSeq cfg fetchFor gen st xs).1 ys).2) := by
  intro xs
  induction xs with
  | nil => intro ys st; simp [sendSeq]
  | cons x t ih => intro ys st; simp [sendSeq, ih, List.append_assoc]

/-- Claim C7: a non-immediate send appends to the in-memory buffer and
flushes exactly when the buffer reaches batchSize; a flush attempts
every buffered item in order and a failure on one item does not abort
the rest; and with batchSize 10, twelve non-immediate calls trigger
exactly one size-driven flush (attempting precisely the first ten calls)
and leave the last two calls buffered. -/
theorem batching_flush_behavior {α : Type}
    (fetchFor : String → α → FetchResult) (gen : Nat → Nat × String)
    (q : List (QueuedEvent α)) (events : List (String × α)) (k : Nat)
    (cfg : ResolvedConfig) (st : ClientState α) (endpoint : String)
    (payload : α) (rs : List (String × α))
    (hTest : cfg.testMode = false) (h12 : rs.length = 12) :
    (flushAux fetchFor gen k q events).2 = events ∧
    (send cfg fetchFor gen st endpoint payload true false).1.batch =
      (if cfg.batchSize ≤ st.batch.length + 1 then []
       else st.batch ++ [(endpoint, payload)]) ∧
    sendSeq cfg10 (fetchOk (α := α)) gen ⟨[], []⟩ rs =
      (⟨rs.drop 10, []⟩, rs.take 10) := by
  refine ⟨flushAux_attempts fetchFor gen events k q,
    send_batch_eq cfg fetchFor gen st endpoint payload hTest, ?_⟩
  have hlen10 : (rs.take 10).length = 10 := by
    simp [List.length_take, h12]
  have hne : rs.take 10 ≠ [] := by
    intro h0
    rw [h0] at hlen10
    simp at hlen10
  have h1 := sendSeq_flush (α := α) gen (rs.take 10) ⟨[], []⟩ rfl hne
    (by simp [hlen10]; rfl)
  have h2 := sendSeq_fill cfg10 (fetchOk (α := α)) gen rfl (rs.drop 10) ⟨[], []⟩
    (by simp [h12]; norm_num [cfg10, DEFAULT_CONFIG])
  calc sendSeq cfg10 (fetchOk (α := α)) gen ⟨[], []⟩ rs
      = sendSeq cfg10 (fetchOk (α := α)) gen ⟨[], []⟩ (rs.take 10 ++ rs.drop 10) := by
        rw [List.take_append_drop]
    _ = (⟨rs.drop 10, []⟩, rs.take 10) := by
        rw [sendSeq_append]
        simp [h1, h2]

/-- Witness for claim C7 at twelve concrete calls and a concrete
buffer. -/
theorem batching_flush_behavior_witness :
    (flushAux (fetchOk (α := Nat)) (fun n => (n, "g")) 0 [] [("/a", 1)]).2 =
      [("/a", 1)] ∧
    (send cfg10 (fetchOk (α := Nat)) (fun n => (n, "g")) ⟨[("/b", 2)], []⟩
        ("/c") 3 true false).1.batch =
      (if cfg10.batchSize ≤ [("/b", (2 : Nat))].length + 1 then []
       else [("/b", 2)] ++ [("/c", 3)]) ∧
    sendSeq cfg10 (fetchOk (α := Nat)) (fun n => (n, "g")) ⟨[], []⟩
        [("/e", 1), ("/e", 2), ("/e", 3), ("/e", 4), ("/e", 5), ("/e", 6),
         ("/e", 7), ("/e", 8), ("/e", 9), ("/e", 10), ("/e", 11), ("/e", 12)] =
      (⟨[("/e", 1), ("/e", 2), ("/e", 3), ("/e", 4), ("/e", 5), ("/e", 6),
          ("/e", 7), ("/e", 8), ("/e", 9), ("/e", 10), ("/e", 11),
          ("/e", 12)].drop 10, []⟩,
       [("/e", 1), ("/e", 2), ("/e", 3), ("/e", 4), ("/e", 5), ("/e", 6),
        ("/e", 7), ("/e", 8), ("/e", 9), ("/e", 10), ("/e", 11),
        ("/e", 12)].take 10) :=
  batching_flush_behavior (fetchOk (α := Nat)) (fun n => (n, "g")) []
    [("/a", 1)] 0 cfg10 ⟨[("/b", 2)], []⟩ ("/c") 3
    [("/e", 1), ("/e", 2), ("/e", 3), ("/e", 4), ("/e", 5), ("/e", 6),
     ("/e", 7), ("/e", 8), ("/e", 9), ("/e", 10), ("/e", 11), ("/e", 12)]
    rfl rfl

/-- Claim C8: with testMode enabled, any sequence of send calls issues
zero requests and leaves the batch buffer and the durable queue exactly
as they were (each call returns normally; the model is total and the
source returns before any network or state mutation). -/
theorem testMode_suppresses_network {α : Type} (cfg : ResolvedConfig)
    (fetchFor : String → α → FetchResult) (gen : Nat → Nat × String)
    (st : ClientState α) (calls : List (SendCall α))
    (h : cfg.testMode = true) :
    sendCalls cfg fetchFor gen st calls = (st, []) := by
  induction calls with
  | nil => rfl
  | cons c rest ih => simp [sendCalls, send, h, ih]

/-- Removing an id from the queue introduces no new ids. -/
theorem remove_map_id_subset {α : Type} (cur : List (QueuedEvent α))
    (j i : String)
    (h : i ∈ (EventQueue.remove cur j).map (fun e => e.id)) :
    i ∈ cur.map (fun e => e.id) := by
  simp only [EventQueue.remove, List.mem_map, List.mem_filter] at h ⊢
  obtain ⟨e, ⟨he, _⟩, hid⟩ := h
  exact ⟨e, he, hid⟩

/-- Incrementing a retry count never changes the ids in the queue. -/
theorem map_id_incrementRetry {α : Type} (cur : List (QueuedEvent α))
    (j : String) :
    (EventQueue.incrementRetry cur j).map (fun e => e.id) =
      cur.map (fun e => e.id) := by
  induction cur with
  | nil => rfl
  | cons e rest ih =>
      by_cases he : e.id = j
      · simp [EventQueue.incrementRetry, he]
      · simp [EventQueue.incrementRetry, he, ih]

/-- Removing an id really removes every item bearing it. -/
theorem not_mem_remove_self {α : Type} (cur : List (QueuedEvent α))
    (i : String) :
    i ∉ (EventQueue.remove cur i).map (fun e => e.id) := by
  simp [EventQueue.remove, List.mem_map, List.mem_filter]

/-- One drain step never reintroduces an id that is absent from the
queue. -/
theorem drainStep_id_preserve {α : Type} (ra : Nat)
    (ff : String → α → FetchResult) (cur : List (QueuedEvent α))
    (acc : List (String × α)) (ev : QueuedEvent α) (i : String)
    (h : i ∉ cur.map (fun e => e.id)) :
    i ∉ (drainStep ra ff (cur, acc) ev).1.map (fun e => e.id) := by
  unfold drainStep
  by_cases hra : ra ≤ ev.retries
  · simp only [hra, if_true]
    exact fun hc => h (remove_map_id_subset cur ev.id i hc)
  · simp only [hra, if_false]
    rcases fetchError (ff ev.payload.endpoint ev.payload.payload) with _ | e
    · exact fun hc => h (remove_map_id_subset cur ev.id i hc)
    · simp only
      by_cases hc : isCorsErrorDrain e
      · simp only [hc, if_true]
        exact fun hx => h (remove_map_id_subset cur ev.id i hx)
      · simpa [hc, map_id_incrementRetry] using h

/-- A drain pass never reintroduces an id that is absent from the
queue. -/
theorem drain_id_gone {α : Type} (ra : Nat) (ff : String → α → FetchResult)
    (l : List (QueuedEvent α)) :
    ∀ (cur : List (QueuedEvent α)) (acc : List (String × α)) (i : String),
      i ∉ cur.map (fun e => e.id) →
      i ∉ ((l.foldl (drainStep ra ff) (cur, acc)).1.map (fun e => e.id)) := by
  induction l with
  | nil => intro cur acc i h; simpa using h
  | cons ev t ih =>
      intro cur acc i h
      have h2 := drainStep_id_preserve ra ff cur acc ev i h
      simpa using ih (drainStep ra ff (cur, acc) ev).1
        (drainStep ra ff (cur, acc) ev).2 i h2

/-- An item of the scanned snapshot whose retry count has reached the
ceiling is absent from the queue after the drain pass. -/
theorem drain_removes_exhausted {α : Type} (ra : Nat)
    (ff : String → α → FetchResult) (l : List (QueuedEvent α)) :
    ∀ (cur : List (QueuedEvent α)) (acc : List (String × α))
      (ev : QueuedEvent α), ev ∈ l → ra ≤ ev.retries →
      ev.id ∉ ((l.foldl (drainStep ra ff) (cur, acc)).1.map (fun e => e.id)) := by
  induction l with
  | nil => intro cur acc ev hmem; simp at hmem
  | cons a t ih =>
      intro cur acc ev hmem hra
      rcases List.mem_cons.mp hmem with heq | hmem2
      · subst heq
        have hstep : drainStep ra ff (cur, acc) ev =
            (EventQueue.remove cur ev.id, acc) := by
          unfold drainStep; simp [hra]
        rw [List.foldl_cons, hstep]
        exact drain_id_gone ra ff t (EventQueue.remove cur ev.id) acc ev.id
          (not_mem_remove_self cur ev.id)
      · exact ih _ _ ev hmem2 hra

/-- The requests a drain pass issues are exactly those of the scanned
items that are below the retry ceiling, in order. -/
theorem drain_requests {α : Type} (ra : Nat) (ff : String → α → FetchResult)
    (l : List (QueuedEvent α)) :
    ∀ (cur : List (QueuedEvent α)) (acc : List (String × α)),
      (l.foldl (drainStep ra ff) (cur, acc)).2 =
        acc ++ (l.filter (fun e => e.retries < ra)).map
          (fun e => (e.payload.endpoint, e.payload.payload)) := by
  induction l with
  | nil => intro cur acc; simp
  | cons ev t ih =>
      intro cur acc
      by_cases hra : ra ≤ ev.retries
      · have hkeep : ¬ (ev.retries < ra) := by omega
        have hstep : drainStep ra ff (cur, acc) ev =
            (EventQueue.remove cur ev.id, acc) := by
          unfold drainStep; simp [hra]
        rw [List.foldl_cons, hstep, ih, List.filter_cons]
        simp [hkeep]
      · have hkeep : ev.retries < ra := by omega
        have hacc : (drainStep ra ff (cur, acc) ev).2 =
            acc ++ [(ev.payload.endpoint, ev.payload.payload)] := by
          unfold drainStep
          simp only [hra, if_false]
          rcases fetchError (ff ev.payload.endpoint ev.payload.payload) with _ | e
          · simp
          · by_cases hc : isCorsErrorDrain e <;> simp [hc]
        have := ih (drainStep ra ff (cur, acc) ev).1
          (drainStep ra ff (cur, acc) ev).2
        rw [List.foldl_cons] at *
        rw [this, hacc, List.filter_cons]
        simp [hkeep]

/-- Claim C5: an item of the scanned snapshot (the 10 oldest items)
whose retry count has reached retryAttempts is removed by the drain pass
and no delivery request is attempted for it: the requests of the pass
are exactly those of the scanned items below the ceiling, and at most 10
requests are issued per pass. -/
theorem processQueue_drops_exhausted_without_attempt {α : Type} (ra : Nat)
    (fetchFor : String → α → FetchResult) (q : List (QueuedEvent α))
    (ev : QueuedEvent α) (hmem : ev ∈ q.take 10) (hra : ra ≤ ev.retries) :
    ev.id ∉ (processQueue ra fetchFor q).1.map (fun e => e.id) ∧
    (processQueue ra fetchFor q).2 =
      ((q.take 10).filter (fun e => e.retries < ra)).map
        (fun e => (e.payload.endpoint, e.payload.payload)) ∧
    (processQueue ra fetchFor q).2.length ≤ 10 := by
  refine ⟨drain_removes_exhausted ra fetchFor (q.take 10) q [] ev hmem hra,
    by simpa using drain_requests ra fetchFor (q.take 10) q [], ?_⟩
  unfold processQueue
  rw [drain_requests ra fetchFor (q.take 10) q []]
  simp only [List.nil_append, List.length_map]
  calc ((q.take 10).filter (fun e => e.retries < ra)).length
      ≤ (q.take 10).length := List.length_filter_le _ _
    _ ≤ 10 := List.length_take_le _ _

/-- Witness for claim C5: a two-item queue whose first item has
exhausted its single allowed retry. -/
theorem processQueue_drops_exhausted_without_attempt_witness :
    ("a" : String) ∉ (processQueue 1 fetchOk
        [⟨"a", 0, 1, .event, ⟨"/events", (1 : Nat)⟩⟩,
         ⟨"b", 0, 0, .event, ⟨"/events", 2⟩⟩]).1.map (fun e => e.id) ∧
    (processQueue 1 fetchOk
        [⟨"a", 0, 1, .event, ⟨"/events", (1 : Nat)⟩⟩,
         ⟨"b", 0, 0, .event, ⟨"/events", 2⟩⟩]).2 =
      ((([⟨"a", 0, 1, .event, ⟨"/events", (1 : Nat)⟩⟩,
          ⟨"b", 0, 0, .event, ⟨"/events", 2⟩⟩] :
            List (QueuedEvent Nat)).take 10).filter
          (fun e => e.retries < 1)).map
        (fun e => (e.payload.endpoint, e.payload.payload)) ∧
    (processQueue 1 fetchOk
        [⟨"a", 0, 1, .event, ⟨"/events", (1 : Nat)⟩⟩,
         ⟨"b", 0, 0, .event, ⟨"/events", 2⟩⟩]).2.length ≤ 10 :=
  processQueue_drops_exhausted_without_attempt 1 fetchOk _
    ⟨"a", 0, 1, .event, ⟨"/events", 1⟩⟩ (by decide) (by decide)

/-- Claim C6: a failed non-CORS immediate send enqueues exactly one item
holding the originally constructed endpoint and payload with retry count
0, and a later successful drain pass issues exactly one delivery request
whose endpoint and body equal that original pair, removing the item from
the queue. -/
theorem failed_send_enqueue_then_drain_roundtrip {α : Type}
    (endpoint : String) (payload : α) (e : JsError) (now : Nat)
    (rand : String) (ra : Nat) (hCors : isCorsErrorSend e = false)
    (hra : 0 < ra) :
    (sendImmediate ([] : List (QueuedEvent α)) endpoint payload true
        (.rejected e) now rand).2.1 =
      [{ id := toString now ++ "_" ++ rand, timestamp := now, retries := 0
       , type := eventTypeFor endpoint, payload := ⟨endpoint, payload⟩ }] ∧
    processQueue ra fetchOk
        [{ id := toString now ++ "_" ++ rand, timestamp := now, retries := 0
         , type := eventTypeFor endpoint, payload := ⟨endpoint, payload⟩ }] =
      ([], [(endpoint, payload)]) := by
  have hok : fetchError (FetchResult.resolved 200 ("OK")) = none := rfl
  constructor
  · simp [sendImmediate, fetchError, hCors, EventQueue.enqueue, maxQueueSize]
  · have hne : ¬ (ra ≤ 0) := by omega
    simp [processQueue, drainStep, fetchOk, hok, hne, EventQueue.remove]

/-- Witness for claim C6 at a concrete endpoint, payload and failure. -/
theorem failed_send_enqueue_then_drain_roundtrip_witness :
    (sendImmediate ([] : List (QueuedEvent Nat)) ("/errors/services") 9 true
        (.rejected ⟨"Error", "HTTP 503: Service Unavailable"⟩) 4 ("s")).2.1 =
      [{ id := toString 4 ++ "_" ++ "s", timestamp := 4, retries := 0
       , type := eventTypeFor ("/errors/services")
       , payload := ⟨"/errors/services", 9⟩ }] ∧
    processQueue 3 fetchOk
        [{ id := toString 4 ++ "_" ++ "s", timestamp := 4, retries := 0
         , type := eventTypeFor ("/errors/services")
         , payload := ⟨"/errors/services", 9⟩ }] =
      ([], [("/errors/services", 9)]) :=
  failed_send_enqueue_then_drain_roundtrip ("/errors/services") 9
    ⟨"Error", "HTTP 503: Service Unavailable"⟩ 4 ("s") 3 (by decide) (by decide)

/-- Claim C9: mergeConfig resolves every top-level key to the user value
when present and to the default otherwise, merges the nested autoTrack,
autoTrackSelectors and exclude objects key by key (setting one nested
key leaves the defaults of the sibling keys unchanged), and ignores
unrecognized keys entirely. -/
theorem mergeConfig_per_key_policy (dd : Bool) (u : UserConfig)
    (ex : List String) :
    (mergeConfig dd u).serviceUrl =
      u.serviceUrl.getD (DEFAULT_CONFIG dd).serviceUrl ∧
    (mergeConfig dd u).serviceName =
      u.serviceName.getD (DEFAULT_CONFIG dd).serviceName ∧
    (mergeConfig dd u).batchSize = u.batchSize.getD 10 ∧
    (mergeConfig dd u).batchInterval = u.batchInterval.getD 5000 ∧
    (mergeConfig dd u).retryAttempts = u.retryAttempts.getD 3 ∧
    (mergeConfig dd u).devMode = u.devMode.getD dd ∧
    (mergeConfig dd u).testMode = u.testMode.getD false ∧
    (mergeConfig dd u).autoTrack.pageViews =
      (u.autoTrack.bind (fun o => o.pageViews)).getD true ∧
    (mergeConfig dd u).autoTrack.errors =
      (u.autoTrack.bind (fun o => o.errors)).getD true ∧
    (mergeConfig dd u).autoTrack.apiErrors =
      (u.autoTrack.bind (fun o => o.apiErrors)).getD true ∧
    (mergeConfig dd u).autoTrack.clicks =
      (u.autoTrack.bind (fun o => o.clicks)).getD false ∧
    (mergeConfig dd u).autoTrack.formChanges =
      (u.autoTrack.bind (fun o => o.formChanges)).getD false ∧
    (mergeConfig dd u).autoTrack.apiCalls =
      (u.autoTrack.bind (fun o => o.apiCalls)).getD false ∧
    (mergeConfig dd u).autoTrackSelectors.clicks =
      (u.autoTrackSelectors.bind (fun o => o.clicks)).getD [] ∧
    (mergeConfig dd u).exclude.paths =
      (u.exclude.bind (fun o => o.paths)).getD [] ∧
    (mergeConfig dd u).exclude.selectors =
      (u.exclude.bind (fun o => o.selectors)).getD [] ∧
    mergeConfig dd { u with unrecognized := ex } = mergeConfig dd u := by
  obtain ⟨su, sn, oat, osel, oex, bs, bi, ra, dm, tm, unr⟩ := u
  rcases oat with _ | at0 <;> rcases osel with _ | sel0 <;> rcases oex with _ | ex0 <;>
    simp [mergeConfig, spreadAutoTrack, spreadSelectors, spreadExclude,
      DEFAULT_CONFIG]

/-- Facts about the decimal digit characters. -/
theorem digitChar_spec (d : Nat) (h : d < 10) :
    (digitChar d).isDigit = true ∧ charVal (digitChar d) = d ∧
    isWs (digitChar d) = false ∧ digitChar d ≠ '-' ∧ digitChar d ≠ '+' := by
  interval_cases d <;> exact ⟨rfl, rfl, rfl, by decide, by decide⟩

/-- Folding the parse step over a digit list printed most significant
first recovers the number the digits denote. -/
theorem foldl_digits_rev (L : List Nat) :
    ∀ acc : Nat, (∀ d ∈ L, d < 10) →
      ((L.reverse.map digitChar).foldl (fun a c => a * 10 + charVal c) acc) =
        acc * 10 ^ L.length + Nat.ofDigits 10 L := by
  induction L with
  | nil => intro acc _; simp [Nat.ofDigits_nil]
  | cons d L ih =>
      intro acc h
      have hd : d < 10 := h d (List.mem_cons_self d L)
      have hL : ∀ x ∈ L, x < 10 := fun x hx => h x (List.mem_cons_of_mem d hx)
      rw [List.reverse_cons, List.map_append, List.foldl_append]
      simp only [List.map_cons, List.map_nil, List.foldl_cons, List.foldl_nil]
      rw [ih acc hL, (digitChar_spec d hd).2.1, Nat.ofDigits_cons,
        List.length_cons, pow_succ]
      ring

/-- takeWhile of a predicate that holds everywhere is the identity. -/
theorem takeWhile_of_all (p : Char → Bool) :
    ∀ (cs : List Char), (∀ c ∈ cs, p c = true) → cs.takeWhile p = cs := by
  intro cs
  induction cs with
  | nil => intro _; rfl
  | cons c t ih =>
      intro h
      rw [List.takeWhile_cons, h c (List.mem_cons_self c t)]
      simp [ih (fun x hx => h x (List.mem_cons_of_mem c hx))]

/-- Character list of the decimal print of a nonzero natural number. -/
theorem natToDec_toList (n : Nat) (h : n ≠ 0) :
    (natToDec n).toList = (Nat.digits 10 n).reverse.map digitChar := by
  unfold natToDec
  rw [if_neg h]
  rfl

/-- Character list of the decimal print of zero. -/
theorem natToDec_zero : (natToDec 0).toList = ['0'] := rfl

/-- Every character of a decimal print is a digit. -/
theorem natToDec_all_digits (n : Nat) :
    ∀ c ∈ (natToDec n).toList, c.isDigit = true := by
  by_cases h : n = 0
  · subst h
    intro c hc
    rw [natToDec_zero] at hc
    simp at hc
    subst hc
    rfl
  · rw [natToDec_toList n h]
    intro c hc
    rw [List.mem_map] at hc
    obtain ⟨d, hd, rfl⟩ := hc
    rw [List.mem_reverse] at hd
    exact (digitChar_spec d (Nat.digits_lt_base (by norm_num) hd)).1

/-- A decimal print is never the empty string. -/
theorem natToDec_ne_nil (n : Nat) : (natToDec n).toList ≠ [] := by
  by_cases h : n = 0
  · subst h
    rw [natToDec_zero]
    simp
  · rw [natToDec_toList n h]
    intro hnil
    have hlen := congrArg List.length hnil
    simp only [List.length_map, List.length_reverse, List.length_nil] at hlen
    exact (Nat.digits_ne_nil_iff_ne_zero.mpr h) (List.length_eq_zero.mp hlen)

/-- Parsing the digits of a decimal print recovers the number. -/
theorem parseDigits_natToDec (n : Nat) :
    parseDigits (natToDec n).toList = some n := by
  have hall := natToDec_all_digits n
  have hne := natToDec_ne_nil n
  have htw : (natToDec n).toList.takeWhile Char.isDigit = (natToDec n).toList :=
    takeWhile_of_all Char.isDigit (natToDec n).toList hall
  have hf : ((natToDec n).toList.isEmpty) = false := by
    rcases hcs : (natToDec n).toList with _ | ⟨c, t⟩
    · exact absurd hcs hne
    · rfl
  simp only [parseDigits, htw, hf, Bool.false_eq_true, if_false]
  by_cases h : n = 0
  · subst h
    rw [natToDec_zero]
    rfl
  · rw [natToDec_toList n h,
      foldl_digits_rev (Nat.digits 10 n) 0
        (fun d hd => Nat.digits_lt_base (by norm_num) hd)]
    simp [Nat.ofDigits_digits]

/-- No character of a decimal print is parseInt whitespace or a sign. -/
theorem natToDec_not_ws_sign (n : Nat) :
    ∀ c ∈ (natToDec n).toList, isWs c = false ∧ c ≠ '-' ∧ c ≠ '+' := by
  by_cases h : n = 0
  · subst h
    intro c hc
    rw [natToDec_zero] at hc
    simp at hc
    subst hc
    exact ⟨rfl, by decide, by decide⟩
  · rw [natToDec_toList n h]
    intro c hc
    rw [List.mem_map] at hc
    obtain ⟨d, hd, rfl⟩ := hc
    rw [List.mem_reverse] at hd
    have hlt := Nat.digits_lt_base (by norm_num) hd
    exact ⟨(digitChar_spec d hlt).2.2.1, (digitChar_spec d hlt).2.2.2.1,
      (digitChar_spec d hlt).2.2.2.2⟩

/-- parseInt with radix 10 inverts the decimal print of a natural
number. -/
theorem parseInt10_natToDec (m : Nat) :
    parseInt10 (natToDec m) = some (m : Int) := by
  have hne := natToDec_ne_nil m
  unfold parseInt10
  rcases hcs : (natToDec m).toList with _ | ⟨c, t⟩
  · exact absurd hcs hne
  · have hcmem : c ∈ (natToDec m).toList := by
      rw [hcs]; exact List.mem_cons_self c t
    obtain ⟨hws, hcd, hcp⟩ := natToDec_not_ws_sign m c hcmem
    rw [List.dropWhile_cons, hws]
    simp only [Bool.false_eq_true, if_false]
    rw [if_neg hcd, if_neg hcp, ← hcs, parseDigits_natToDec]
    rfl

/-- The decimal print of an integer is nonempty. -/
theorem jsIntToString_ne_empty (n : Int) : jsIntToString n ≠ "" := by
  intro he
  have hl := congrArg String.toList he
  unfold jsIntToString at hl
  by_cases h : n < 0
  · rw [if_pos h] at hl
    have : ("-" ++ natToDec n.natAbs).toList =
        '-' :: (natToDec n.natAbs).toList := rfl
    rw [this] at hl
    simp at hl
  · rw [if_neg h] at hl
    exact natToDec_ne_nil n.toNat hl

/-- parseInt with radix 10 inverts the decimal print of an integer. -/
theorem jsIntToString_roundtrip (n : Int) :
    parseInt10 (jsIntToString n) = some n := by
  by_cases h : n < 0
  · unfold jsIntToString
    rw [if_pos h]
    have hl : ("-" ++ natToDec n.natAbs).toList =
        '-' :: (natToDec n.natAbs).toList := rfl
    unfold parseInt10
    rw [hl, List.dropWhile_cons]
    have hw : isWs '-' = false := rfl
    rw [hw]
    simp only [Bool.false_eq_true, if_false, if_true]
    rw [parseDigits_natToDec]
    have hcast : Int.ofNat n.natAbs = (n.natAbs : Int) := rfl
    have hab : -(Int.ofNat n.natAbs) = n := by rw [hcast]; omega
    rw [show (some n.natAbs).map (fun m => -(Int.ofNat m)) =
        some (-(Int.ofNat n.natAbs)) from rfl, hab]
  · unfold jsIntToString
    rw [if_neg h, parseInt10_natToDec]
    congr 1
    omega

/-- Claim C10: setting a user id stores its decimal string, which
getObservabilityUserId parses back to the same integer, taking
precedence over every heuristic pattern; clearing the id removes the
override key so resolution falls back to the getUserId heuristics. -/
theorem setUserId_getObservabilityUserId_roundtrip (n : Int) (st : Store)
    (jsonParse : String → Option JsUser) :
    getObservabilityUserId jsonParse (setUserId (some n) st) = some n ∧
    getObservabilityUserId jsonParse (setUserId none st) =
      getUserId jsonParse (setUserId none st) ∧
    (setUserId none st) ("observability_user_id") = none := by
  refine ⟨?_, ?_, ?_⟩
  · simp [getObservabilityUserId, setUserId, Store.setItem,
      jsIntToString_roundtrip, jsIntToString_ne_empty n]
  · simp [getObservabilityUserId, setUserId, Store.removeItem]
  · simp [setUserId, Store.removeItem]

/-- Witness for claim C8: two concrete calls in test mode. -/
theorem testMode_suppresses_network_witness :
    sendCalls { DEFAULT_CONFIG false with testMode := true } fetchOk
      (fun k => (k, "r")) (⟨[], []⟩ : ClientState Nat)
      [⟨"/events", 1, true, false⟩, ⟨"/errors/ui", 2, true, true⟩] =
      ((⟨[], []⟩ : ClientState Nat), []) :=
  testMode_suppresses_network _ _ _ _ _ rfl

end Obs
